import Mathlib

/-!
Verification development for the nautilus_trader core: the Position ledger
(`nautilus_trader/model/position`) and the Trader orchestrator
(`nautilus_trader/trading/trader.pyx`), shallowly embedded in Lean 4.

Decimal arithmetic is embedded as `ℚ`; Python lists as `List`; methods that
may raise are embedded as `Except`-valued functions; read-only methods that
Python exposes on a mutable object are embedded as functions returning the
result paired with the (unchanged) post-state.
-/

namespace Nautilus

/-- Order side of a fill, from `nautilus_trader.model.c_enums.order_side`. -/
inductive OrderSide
  | buy
  | sell
deriving DecidableEq, Repr

/-- Position side, from `nautilus_trader.model.c_enums.position_side`. -/
inductive PositionSide
  | flat
  | long
  | short
deriving DecidableEq, Repr

/-- A currency, identified by its code (`nautilus_trader.model.currency`). -/
structure Currency where
  code : String
deriving DecidableEq, Repr

/-- Money: an amount denominated in a currency (`nautilus_trader.model.objects.Money`). -/
structure Money where
  amount : ℚ
  currency : Currency
deriving DecidableEq, Repr

/-- An order-fill event (`nautilus_trader.model.events.order.OrderFilled`),
restricted to the fields the Position ledger reads. -/
structure OrderFilled where
  instrument_id : String
  client_order_id : String
  execution_id : String
  order_side : OrderSide
  last_qty : ℚ
  last_px : ℚ
  commission : Money
  ts_filled_ns : Int
deriving DecidableEq, Repr

/-- The Position ledger state, mirroring the attribute layout declared in
`nautilus_trader/model/position.pxd` (the private `_events`, `_execution_ids`,
`_buy_qty`, `_sell_qty` and `_commissions` fields are embedded without the
leading underscore). -/
structure Position where
  trader_id : String
  strategy_id : String
  instrument_id : String
  id : String
  account_id : String
  from_order : String
  entry : OrderSide
  side : PositionSide
  net_qty : ℚ
  quantity : ℚ
  peak_qty : ℚ
  multiplier : ℚ
  is_inverse : Bool
  quote_currency : Currency
  cost_currency : Currency
  ts_init : Int
  ts_opened : Int
  ts_last : Int
  ts_closed : Int
  duration_ns : Int
  avg_px_open : ℚ
  avg_px_close : Option ℚ
  realized_points : ℚ
  realized_return : ℚ
  realized_pnl : ℚ
  buy_qty : ℚ
  sell_qty : ℚ
  commissions_map : List (Currency × ℚ)
  events : List OrderFilled
  execution_ids : List String
deriving DecidableEq, Repr

/-- The fatal integrity error raised by `Position.apply` on a duplicate
execution id or an instrument mismatch. -/
inductive PosError
  | dataIntegrity (msg : String)
deriving DecidableEq, Repr

/-- Modelled from the spec: `Position.is_opposite_side` (the `position.pyx`
implementation is not in the source tree; `position.pxd` declares the method).
A fill opposes the current side when it would reduce the open exposure. -/
def Position.is_opposite_side (p : Position) (side : OrderSide) : Bool :=
  match p.side, side with
  | PositionSide.long, OrderSide.sell => true
  | PositionSide.short, OrderSide.buy => true
  | _, _ => false

/-- Modelled from the spec: `Position._calculate_points` — price points between
open and close, sign-adjusted (negated) when the position side is SHORT. -/
def Position._calculate_points (p : Position) (avg_px_open avg_px_close : ℚ) : ℚ :=
  if p.side = PositionSide.short then avg_px_open - avg_px_close
  else avg_px_close - avg_px_open

/-- Modelled from the spec: `Position._calculate_points_inverse` — reciprocal
price points for inverse contracts, sign-adjusted (negated) for SHORT. -/
def Position._calculate_points_inverse (p : Position) (avg_px_open avg_px_close : ℚ) : ℚ :=
  if p.side = PositionSide.short then 1 / avg_px_close - 1 / avg_px_open
  else 1 / avg_px_open - 1 / avg_px_close

/-- Modelled from the spec: `Position._calculate_return` — realized return as
points relative to the open price. -/
def Position._calculate_return (p : Position) (avg_px_open avg_px_close : ℚ) : ℚ :=
  p._calculate_points avg_px_open avg_px_close / avg_px_open

/-- Modelled from the spec: `Position._calculate_pnl` — PnL amount: for a
standard contract `qty × multiplier × points`, for an inverse contract
`qty × multiplier × points_inverse`. -/
def Position._calculate_pnl (p : Position) (avg_px_open avg_px_close quantity : ℚ) : ℚ :=
  if p.is_inverse then
    quantity * p.multiplier * p._calculate_points_inverse avg_px_open avg_px_close
  else
    quantity * p.multiplier * p._calculate_points avg_px_open avg_px_close

/-- Modelled from the spec: `Position.calculate_pnl` — the PnL amount wrapped
as `Money` in the position's cost currency. -/
def Position.calculate_pnl (p : Position) (avg_px_open avg_px_close quantity : ℚ) : Money :=
  Money.mk (p._calculate_pnl avg_px_open avg_px_close quantity) p.cost_currency

/-- Modelled from the spec: `Position.unrealized_pnl` — PnL of the currently
open quantity marked at the given last price. -/
def Position.unrealized_pnl (p : Position) (last : ℚ) : Money :=
  if p.quantity = 0 then Money.mk 0 p.cost_currency
  else p.calculate_pnl p.avg_px_open last p.quantity

/-- Modelled from the spec: `Position.total_pnl` — realized plus unrealized. -/
def Position.total_pnl (p : Position) (last : ℚ) : Money :=
  Money.mk (p.realized_pnl + (p.unrealized_pnl last).amount) p.cost_currency

/-- Add a commission amount into the per-currency commission mapping, summing
amounts of the same currency (keys unique). -/
def addCommission : List (Currency × ℚ) → Currency → ℚ → List (Currency × ℚ)
  | [], cur, amt => [(cur, amt)]
  | (c, a) :: rest, cur, amt =>
    if c = cur then (c, a + amt) :: rest else (c, a) :: addCommission rest cur amt

/-- Modelled from the spec: `Position.apply` (the `position.pyx` implementation
is not in the source tree; `position.pxd` declares the method). Preconditions
are checked first — a duplicate execution id or an instrument mismatch is a
fatal `DataIntegrityError` and no state is produced. Otherwise the fill is
split into a closing portion (`min(quantity, fill.qty)` when the fill opposes
the current side) and an opening portion (the remainder — a flip); the closing
portion realizes PnL without touching `avg_px_open`, the opening portion
recomputes `avg_px_open` as a quantity-weighted mean (reset to the fill price
on a flip, with `avg_px_close` cleared); then the quantity, peak, timestamps,
commission mapping and histories are updated. -/
def Position.apply (p : Position) (fill : OrderFilled) : Except PosError Position :=
  if fill.execution_id ∈ p.execution_ids then
    Except.error (PosError.dataIntegrity "duplicate execution_id")
  else if fill.instrument_id ≠ p.instrument_id then
    Except.error (PosError.dataIntegrity "instrument_id mismatch")
  else
    let opposing := p.is_opposite_side fill.order_side
    let closing_qty := if opposing then min p.quantity fill.last_qty else 0
    let opening_qty := fill.last_qty - closing_qty
    let realized_delta :=
      if 0 < closing_qty then p._calculate_pnl p.avg_px_open fill.last_px closing_qty else 0
    let close_weight := if fill.order_side = OrderSide.sell then p.sell_qty else p.buy_qty
    let avg_close_partial : Option ℚ :=
      if 0 < closing_qty then
        match p.avg_px_close with
        | none => some fill.last_px
        | some a =>
          some ((a * close_weight + fill.last_px * closing_qty) / (close_weight + closing_qty))
      else p.avg_px_close
    let signed :=
      match fill.order_side with
      | OrderSide.buy => fill.last_qty
      | OrderSide.sell => -fill.last_qty
    let net' := p.net_qty + signed
    let side' : PositionSide :=
      if 0 < net' then PositionSide.long
      else if net' < 0 then PositionSide.short
      else PositionSide.flat
    let flip := opposing && decide (0 < opening_qty)
    let avg_open' :=
      if flip then fill.last_px
      else if opposing then p.avg_px_open
      else if p.quantity = 0 then fill.last_px
      else (p.avg_px_open * p.quantity + fill.last_px * fill.last_qty)
             / (p.quantity + fill.last_qty)
    let avg_close' := if flip then none else avg_close_partial
    let quantity' := |net'|
    let closed_now := quantity' = 0
    let realized_points' :=
      if closed_now then
        match avg_close' with
        | some a => p._calculate_points p.avg_px_open a
        | none => p.realized_points
      else p.realized_points
    let realized_return' :=
      if closed_now then
        match avg_close' with
        | some a => p._calculate_return p.avg_px_open a
        | none => p.realized_return
      else p.realized_return
    Except.ok
      { p with
        side := side'
        net_qty := net'
        quantity := quantity'
        peak_qty := max p.peak_qty quantity'
        ts_last := fill.ts_filled_ns
        ts_closed := if closed_now then fill.ts_filled_ns else p.ts_closed
        duration_ns := if closed_now then fill.ts_filled_ns - p.ts_opened else p.duration_ns
        avg_px_open := avg_open'
        avg_px_close := avg_close'
        realized_points := realized_points'
        realized_return := realized_return'
        realized_pnl := p.realized_pnl + realized_delta
        buy_qty := p.buy_qty + (if fill.order_side = OrderSide.buy then fill.last_qty else 0)
        sell_qty := p.sell_qty + (if fill.order_side = OrderSide.sell then fill.last_qty else 0)
        commissions_map := addCommission p.commissions_map fill.commission.currency fill.commission.amount
        events := p.events ++ [fill]
        execution_ids := p.execution_ids ++ [fill.execution_id] }

/-- The observable state of the Position object after an `apply` call, whether
or not the call raised: a raising call leaves the object exactly as it was. -/
def Position.apply_post (p : Position) (fill : OrderFilled) : Position :=
  match p.apply fill with
  | Except.ok q => q
  | Except.error _ => p

/-- Lifecycle states of a Component (`nautilus_trader.common.component`). -/
inductive ComponentState
  | preInitialized
  | initialized
  | starting
  | running
  | stopping
  | stopped
  | resetting
  | disposed
deriving DecidableEq, Repr

/-- Log levels of the Logger collaborator. -/
inductive LogLevel
  | info
  | warning
  | error
deriving DecidableEq, Repr

/-- One record emitted through a Logger. -/
structure LogRecord where
  level : LogLevel
  msg : String
deriving DecidableEq, Repr

/-- A registered unit (`nautilus_trader.common.actor.Actor`; a
`TradingStrategy` is embedded with the same state, its extra `portfolio`
wiring held in `portfolio_ref`). Wiring references record which shared-service
instance the unit was registered with; `clock` holds the identity of the clock
instance constructed for the unit (clock instances are numbered, so two
distinct constructions never share a number). The `...Calls` counters count
invocations of the corresponding lifecycle verb's hook. -/
structure Actor where
  id : Nat
  state : ComponentState
  trader_id : Option Nat
  portfolio_ref : Option Nat
  msgbus_ref : Option Nat
  cache_ref : Option Nat
  clock : Option Nat
  logger_ref : Option Nat
  oms_registered : Bool
  startCalls : Nat
  stopCalls : Nat
  resetCalls : Nat
  disposeCalls : Nat
deriving DecidableEq, Repr

/-- `Component.is_running_c`: the unit is in the RUNNING state. -/
def Actor.is_running_c (a : Actor) : Bool := a.state = ComponentState.running

/-- `Component.is_disposed_c`: the unit is in the DISPOSED state. -/
def Actor.is_disposed_c (a : Actor) : Bool := a.state = ComponentState.disposed

/-- Modelled from the spec: `Component.start` (the component base class is not
in the source tree) — no-op when already RUNNING, otherwise transitions to
RUNNING and runs the start hook. -/
def Actor.start (a : Actor) : Actor :=
  if a.is_running_c then a
  else { a with state := ComponentState.running, startCalls := a.startCalls + 1 }

/-- Modelled from the spec: `Component.stop` — stops a RUNNING unit (running
the stop hook), no-op otherwise. -/
def Actor.stop (a : Actor) : Actor :=
  if a.is_running_c then
    { a with state := ComponentState.stopped, stopCalls := a.stopCalls + 1 }
  else a

/-- Modelled from the spec: `Component.reset` — returns the unit to the
INITIALIZED state, running the reset hook. -/
def Actor.reset (a : Actor) : Actor :=
  { a with state := ComponentState.initialized, resetCalls := a.resetCalls + 1 }

/-- Modelled from the spec: `Component.dispose` — transitions to the terminal
DISPOSED state; a no-op when already DISPOSED. -/
def Actor.dispose (a : Actor) : Actor :=
  if a.is_disposed_c then a
  else { a with state := ComponentState.disposed, disposeCalls := a.disposeCalls + 1 }

/-- Modelled from the spec: `TradingStrategy.register` — wires the strategy
with the trader id, shared portfolio, message bus, cache, a per-unit clock
instance and a child logger. -/
def Actor.register (s : Actor) (trader_id portfolio msgbus cache clock logger : Nat) : Actor :=
  { s with
    trader_id := some trader_id
    portfolio_ref := some portfolio
    msgbus_ref := some msgbus
    cache_ref := some cache
    clock := some clock
    logger_ref := some logger }

/-- Modelled from the spec: `Actor.register_base` — wires the actor with the
trader id, message bus, cache, a per-unit clock instance and a child logger
(no portfolio). -/
def Actor.register_base (a : Actor) (trader_id msgbus cache clock logger : Nat) : Actor :=
  { a with
    trader_id := some trader_id
    msgbus_ref := some msgbus
    cache_ref := some cache
    clock := some clock
    logger_ref := some logger }

/-- The shared Portfolio collaborator: its identity plus a counter of resets
(observable effect of `Portfolio.reset`). -/
structure Portfolio where
  pid : Nat
  resets : Nat
deriving DecidableEq, Repr

/-- Modelled from the spec: `Portfolio.reset` clears accumulated portfolio
state; embedded as an observable state change. -/
def Portfolio.reset (p : Portfolio) : Portfolio := { p with resets := p.resets + 1 }

/-- The Trader's `PortfolioAnalyzer` (`nautilus_trader.analysis.analyzer`). -/
structure PortfolioAnalyzer where
  resets : Nat
deriving DecidableEq, Repr

/-- Modelled from the spec: `PortfolioAnalyzer.reset`. -/
def PortfolioAnalyzer.reset (a : PortfolioAnalyzer) : PortfolioAnalyzer :=
  { a with resets := a.resets + 1 }

/-- An account held by the Cache for a venue. -/
structure Account where
  account_id : Nat
  venue : String
deriving DecidableEq, Repr

/-- The Cache collaborator, restricted to what `trader.pyx` reads: its
identity, accounts by venue, and the order/position snapshots backing the
reports. -/
structure Cache where
  cid : Nat
  accounts : List Account
  orders : List Nat
  positions : List Nat
deriving DecidableEq, Repr

/-- `Cache.account_for_venue`: the account registered for the venue, if any. -/
def Cache.account_for_venue (c : Cache) (venue : String) : Option Account :=
  c.accounts.find? (fun a => a.venue = venue)

/-- A pandas DataFrame, abstracted to its rows; `pd.DataFrame()` is `empty`. -/
structure DataFrame where
  rows : List String
deriving DecidableEq, Repr

/-- The empty DataFrame, `pd.DataFrame()`. -/
def DataFrame.empty : DataFrame := DataFrame.mk []

/-- Modelled from the spec: `ReportProvider.generate_orders_report` renders
the cached orders. -/
def ReportProvider.generate_orders_report (orders : List Nat) : DataFrame :=
  DataFrame.mk (orders.map (fun o => toString o))

/-- Modelled from the spec: `ReportProvider.generate_order_fills_report`. -/
def ReportProvider.generate_order_fills_report (orders : List Nat) : DataFrame :=
  DataFrame.mk (orders.map (fun o => toString o))

/-- Modelled from the spec: `ReportProvider.generate_positions_report`. -/
def ReportProvider.generate_positions_report (positions : List Nat) : DataFrame :=
  DataFrame.mk (positions.map (fun q => toString q))

/-- Modelled from the spec: `ReportProvider.generate_account_report`. -/
def ReportProvider.generate_account_report (account : Account) : DataFrame :=
  DataFrame.mk [toString account.account_id]

/-- The errors raised by the `Condition` precondition checks in `trader.pyx`:
`Condition.not_in` raises `KeyError`, `Condition.true` raises `ValueError`. -/
inductive ConditionError
  | keyError (msg : String)
  | valueError (msg : String)
deriving DecidableEq, Repr

/-- The Trader orchestrator state (`nautilus_trader/trading/trader.pyx`):
its component state, references to the shared services, the ordered actor and
strategy registries, the allocation counter for per-unit clock instances
(`self._clock.__class__()` constructs a fresh instance on each registration),
and the log it has emitted. -/
structure Trader where
  id : Nat
  state : ComponentState
  clock_id : Nat
  logger_id : Nat
  msgbus_id : Nat
  cache : Cache
  portfolio : Portfolio
  analyzer : PortfolioAnalyzer
  actors : List Actor
  strategies : List Actor
  next_clock_id : Nat
  log : List LogRecord
deriving DecidableEq, Repr

/-- `Component.is_running_c` for the Trader itself. -/
def Trader.is_running_c (t : Trader) : Bool := t.state = ComponentState.running

/-- Membership test behind `Condition.not_in(strategy, self._strategies)`:
Python `in` compares components by identifier equality. -/
def Trader.contains_strategy (t : Trader) (s : Actor) : Bool :=
  t.strategies.any (fun x => x.id = s.id)

/-- Membership test behind `Condition.not_in(actor, self._actors)`. -/
def Trader.contains_actor (t : Trader) (a : Actor) : Bool :=
  t.actors.any (fun x => x.id = a.id)

/-- `Trader.add_strategy` from `trader.pyx`: `Condition` checks (raising) for
duplicate identity and RUNNING/DISPOSED state; a logged error and no mutation
when the Trader itself is running; otherwise the strategy is registered
(trader id, portfolio, msgbus, cache, a freshly constructed clock, child
logger), given to the execution engine for OMS registration, and appended to
the registry. -/
def Trader.add_strategy (t : Trader) (strategy : Actor) : Except ConditionError Trader :=
  if t.contains_strategy strategy then
    Except.error (ConditionError.keyError "strategy already exists in _strategies")
  else if strategy.is_running_c then
    Except.error (ConditionError.valueError "strategy.state was RUNNING")
  else if strategy.is_disposed_c then
    Except.error (ConditionError.valueError "strategy.state was DISPOSED")
  else if t.is_running_c then
    Except.ok
      { t with log := t.log ++ [LogRecord.mk LogLevel.error "Cannot add a strategy to a running trader."] }
  else
    let s :=
      Actor.register strategy t.id t.portfolio.pid t.msgbus_id t.cache.cid t.next_clock_id t.logger_id
    let s := { s with oms_registered := true }
    Except.ok
      { t with
        strategies := t.strategies ++ [s]
        next_clock_id := t.next_clock_id + 1
        log := t.log ++ [LogRecord.mk LogLevel.info "Registered TradingStrategy."] }

/-- `Trader.add_actor` from `trader.pyx`: like `add_strategy` but wired via
`register_base` (no portfolio, no OMS registration). -/
def Trader.add_actor (t : Trader) (actor : Actor) : Except ConditionError Trader :=
  if t.contains_actor actor then
    Except.error (ConditionError.keyError "actor already exists in _actors")
  else if actor.is_running_c then
    Except.error (ConditionError.valueError "actor.state was RUNNING")
  else if actor.is_disposed_c then
    Except.error (ConditionError.valueError "actor.state was DISPOSED")
  else if t.is_running_c then
    Except.ok
      { t with log := t.log ++ [LogRecord.mk LogLevel.error "Cannot add component to a running trader."] }
  else
    let a := Actor.register_base actor t.id t.msgbus_id t.cache.cid t.next_clock_id t.logger_id
    Except.ok
      { t with
        actors := t.actors ++ [a]
        next_clock_id := t.next_clock_id + 1
        log := t.log ++ [LogRecord.mk LogLevel.info "Registered Component."] }

/-- The Trader state after an `add_strategy` call, whether or not it raised:
a raising call mutates nothing. -/
def Trader.add_strategy_post (t : Trader) (strategy : Actor) : Trader :=
  match t.add_strategy strategy with
  | Except.ok t' => t'
  | Except.error _ => t

/-- The Trader state after an `add_actor` call, whether or not it raised. -/
def Trader.add_actor_post (t : Trader) (actor : Actor) : Trader :=
  match t.add_actor actor with
  | Except.ok t' => t'
  | Except.error _ => t

/-- `Trader._start` from `trader.pyx`: with no strategies loaded, log an error
and return; otherwise start every actor, then every strategy. -/
def Trader._start (t : Trader) : Trader :=
  if t.strategies.isEmpty then
    { t with log := t.log ++ [LogRecord.mk LogLevel.error "No strategies loaded."] }
  else
    { t with
      actors := t.actors.map Actor.start
      strategies := t.strategies.map Actor.start }

/-- One pass of the `_stop` loop over a registry: stop each running unit, log
a warning for each unit that is already stopped. Returns the updated units and
the warnings in iteration order. -/
def stop_each : List Actor → List Actor × List LogRecord
  | [] => ([], [])
  | a :: rest =>
    let r := stop_each rest
    if a.is_running_c then (a.stop :: r.1, r.2)
    else (a :: r.1, LogRecord.mk LogLevel.warning "already stopped." :: r.2)

/-- `Trader._stop` from `trader.pyx`: iterate all actors, then all strategies,
stopping each running one and logging a warning for each non-running one. -/
def Trader._stop (t : Trader) : Trader :=
  let ra := stop_each t.actors
  let rs := stop_each t.strategies
  { t with actors := ra.1, strategies := rs.1, log := t.log ++ ra.2 ++ rs.2 }

/-- `Trader._reset` from `trader.pyx`: reset every actor, then every strategy,
then the shared portfolio, then the analyzer. -/
def Trader._reset (t : Trader) : Trader :=
  { t with
    actors := t.actors.map Actor.reset
    strategies := t.strategies.map Actor.reset
    portfolio := t.portfolio.reset
    analyzer := t.analyzer.reset }

/-- `Trader._dispose` from `trader.pyx`: dispose every actor, then every
strategy. -/
def Trader._dispose (t : Trader) : Trader :=
  { t with
    actors := t.actors.map Actor.dispose
    strategies := t.strategies.map Actor.dispose }

/-- `Trader.actor_ids` from `trader.pyx`: `sorted([actor.id for actor in
self._actors])`, returned with the unchanged post-state. -/
def Trader.actor_ids (t : Trader) : List Nat × Trader :=
  (List.insertionSort (fun a b => a ≤ b) (t.actors.map (fun a => a.id)), t)

/-- `Trader.strategy_ids` from `trader.pyx`: `sorted([strategy.id for strategy
in self._strategies])`, returned with the unchanged post-state. -/
def Trader.strategy_ids (t : Trader) : List Nat × Trader :=
  (List.insertionSort (fun a b => a ≤ b) (t.strategies.map (fun s => s.id)), t)

/-- `Trader.generate_orders_report`: a pure query over the Cache snapshot. -/
def Trader.generate_orders_report (t : Trader) : DataFrame × Trader :=
  (ReportProvider.generate_orders_report t.cache.orders, t)

/-- `Trader.generate_order_fills_report`: a pure query over the Cache. -/
def Trader.generate_order_fills_report (t : Trader) : DataFrame × Trader :=
  (ReportProvider.generate_order_fills_report t.cache.orders, t)

/-- `Trader.generate_positions_report`: a pure query over the Cache. -/
def Trader.generate_positions_report (t : Trader) : DataFrame × Trader :=
  (ReportProvider.generate_positions_report t.cache.positions, t)

/-- `Trader.generate_account_report` from `trader.pyx`: `pd.DataFrame()` when
the Cache holds no account for the venue, else the account's report. -/
def Trader.generate_account_report (t : Trader) (venue : String) : DataFrame × Trader :=
  match t.cache.account_for_venue venue with
  | none => (DataFrame.empty, t)
  | some account => (ReportProvider.generate_account_report account, t)

/-- The unit's clock reference, if set, is a clock number already allocated. -/
def clock_below (n : Nat) (u : Actor) : Bool :=
  match u.clock with
  | none => true
  | some c => decide (c < n)

/-- Clock-allocation invariant: the Trader's own clock and every registered
unit's clock were allocated below the allocation counter (so a fresh
allocation is distinct from all of them). Holds for any Trader built by
registration from an initial state. -/
def Trader.clock_fresh (t : Trader) : Bool :=
  decide (t.clock_id < t.next_clock_id) &&
    (t.actors ++ t.strategies).all (clock_below t.next_clock_id)

/-- A concrete currency for instantiations. -/
def sampleCurrency : Currency := Currency.mk "USD"

/-- A concrete fill for instantiations. -/
def sampleFill : OrderFilled :=
  { instrument_id := "AUDUSD"
    client_order_id := "O1"
    execution_id := "E1"
    order_side := OrderSide.buy
    last_qty := 100
    last_px := 2
    commission := Money.mk 1 sampleCurrency
    ts_filled_ns := 5 }

/-- A concrete long position that has already applied `sampleFill`. -/
def samplePosition : Position :=
  { trader_id := "T1"
    strategy_id := "S1"
    instrument_id := "AUDUSD"
    id := "P1"
    account_id := "A1"
    from_order := "O1"
    entry := OrderSide.buy
    side := PositionSide.long
    net_qty := 100
    quantity := 100
    peak_qty := 100
    multiplier := 1
    is_inverse := false
    quote_currency := sampleCurrency
    cost_currency := sampleCurrency
    ts_init := 0
    ts_opened := 0
    ts_last := 5
    ts_closed := 0
    duration_ns := 0
    avg_px_open := 2
    avg_px_close := none
    realized_points := 0
    realized_return := 0
    realized_pnl := 0
    buy_qty := 100
    sell_qty := 0
    commissions_map := [(sampleCurrency, 1)]
    events := [sampleFill]
    execution_ids := ["E1"] }

/-- C1: applying a fill whose execution id was already applied to the
Position, or whose instrument id differs from the Position's, raises
`DataIntegrityError`, and the observable state of the Position after the
failed call (quantity, net_qty, avg_px_open, realized_pnl, commissions,
event history) equals its state before the call — no partial mutation. -/
theorem position_apply_integrity (p : Position) (fill : OrderFilled)
    (h : fill.execution_id ∈ p.execution_ids ∨ fill.instrument_id ≠ p.instrument_id) :
    (∃ e, p.apply fill = Except.error e) ∧
    p.apply_post fill = p ∧
    (p.apply_post fill).quantity = p.quantity ∧
    (p.apply_post fill).net_qty = p.net_qty ∧
    (p.apply_post fill).avg_px_open = p.avg_px_open ∧
    (p.apply_post fill).realized_pnl = p.realized_pnl ∧
    (p.apply_post fill).commissions_map = p.commissions_map ∧
    (p.apply_post fill).events = p.events := by
  have herr : ∃ e, p.apply fill = Except.error e := by
    by_cases hm : fill.execution_id ∈ p.execution_ids
    · exact ⟨PosError.dataIntegrity "duplicate execution_id",
        by simp only [Position.apply, if_pos hm]⟩
    · have hi : fill.instrument_id ≠ p.instrument_id := h.resolve_left hm
      exact ⟨PosError.dataIntegrity "instrument_id mismatch",
        by simp only [Position.apply, if_neg hm, if_pos hi]⟩
  obtain ⟨e, he⟩ := herr
  have hpost : p.apply_post fill = p := by
    unfold Position.apply_post
    rw [he]
  exact ⟨⟨e, he⟩, hpost, by rw [hpost], by rw [hpost], by rw [hpost], by rw [hpost],
    by rw [hpost], by rw [hpost]⟩

/-- Concrete instantiation of `position_apply_integrity`: re-applying a fill
with execution id "E1" to a position that already holds "E1". -/
theorem position_apply_integrity_witness :
    (sampleFill.execution_id ∈ samplePosition.execution_ids ∨
      sampleFill.instrument_id ≠ samplePosition.instrument_id) ∧
    samplePosition.apply_post sampleFill = samplePosition := by
  refine ⟨Or.inl (by decide), ?_⟩
  exact (position_apply_integrity samplePosition sampleFill (Or.inl (by decide))).2.1

/-- C2: `calculate_pnl(avg_open, avg_close, qty)` returns Money in the cost
currency equal to `(avg_close − avg_open) × qty × multiplier` for a standard
contract and `qty × multiplier × (1/avg_open − 1/avg_close)` for an inverse
contract, negated when the Position's side is SHORT. -/
theorem position_calculate_pnl_spec (p : Position) (avg_open avg_close qty : ℚ)
    (ho : 0 < avg_open) (hc : 0 < avg_close) (hq : 0 < qty) :
    p.calculate_pnl avg_open avg_close qty =
      Money.mk
        (if p.side = PositionSide.short then
          -(if p.is_inverse then qty * p.multiplier * (1 / avg_open - 1 / avg_close)
            else (avg_close - avg_open) * qty * p.multiplier)
         else
          (if p.is_inverse then qty * p.multiplier * (1 / avg_open - 1 / avg_close)
           else (avg_close - avg_open) * qty * p.multiplier))
        p.cost_currency := by
  by_cases hi : p.is_inverse = true <;> by_cases hs : p.side = PositionSide.short <;>
    simp [Position.calculate_pnl, Position._calculate_pnl, Position._calculate_points,
      Position._calculate_points_inverse, hi, hs, Money.mk.injEq] <;> ring

/-- Concrete instantiation of `position_calculate_pnl_spec` on the sample
long standard-contract position at open 2, close 3, quantity 4. -/
theorem position_calculate_pnl_spec_witness :
    0 < (2 : ℚ) ∧ 0 < (3 : ℚ) ∧ 0 < (4 : ℚ) ∧
    samplePosition.calculate_pnl 2 3 4 =
      Money.mk
        (if samplePosition.side = PositionSide.short then
          -(if samplePosition.is_inverse then 4 * samplePosition.multiplier * (1 / 2 - 1 / 3)
            else (3 - 2) * 4 * samplePosition.multiplier)
         else
          (if samplePosition.is_inverse then 4 * samplePosition.multiplier * (1 / 2 - 1 / 3)
           else (3 - 2) * 4 * samplePosition.multiplier))
        samplePosition.cost_currency := by
  refine ⟨by norm_num, by norm_num, by norm_num, ?_⟩
  exact position_calculate_pnl_spec samplePosition 2 3 4 (by norm_num) (by norm_num) (by norm_num)

/-- A concrete cache with no accounts. -/
def sampleCache : Cache := { cid := 7, accounts := [], orders := [3], positions := [4] }

/-- A concrete unit in the INITIALIZED state, not yet wired. -/
def sampleStrategy : Actor :=
  { id := 11
    state := ComponentState.initialized
    trader_id := none
    portfolio_ref := none
    msgbus_ref := none
    cache_ref := none
    clock := none
    logger_ref := none
    oms_registered := false
    startCalls := 0
    stopCalls := 0
    resetCalls := 0
    disposeCalls := 0 }

/-- A second concrete unit, used as an actor. -/
def sampleActor : Actor := { sampleStrategy with id := 12 }

/-- A concrete unit in the RUNNING state. -/
def runningActor : Actor := { sampleStrategy with id := 13, state := ComponentState.running }

/-- A concrete trader in the INITIALIZED state with empty registries. -/
def sampleTrader : Trader :=
  { id := 1
    state := ComponentState.initialized
    clock_id := 0
    logger_id := 2
    msgbus_id := 3
    cache := sampleCache
    portfolio := { pid := 4, resets := 0 }
    analyzer := { resets := 0 }
    actors := []
    strategies := []
    next_clock_id := 1
    log := [] }

/-- The concrete trader in the RUNNING state. -/
def runningTrader : Trader := { sampleTrader with state := ComponentState.running }

/-- C3: calling `add_strategy` on a RUNNING Trader with a strategy that is not
already registered, not RUNNING and not DISPOSED logs an error, raises no
exception, and leaves the strategy registry unchanged: same list, same length,
and the given strategy absent from it. -/
theorem trader_add_strategy_while_running (t : Trader) (s : Actor)
    (hrun : t.is_running_c = true)
    (hmem : t.contains_strategy s = false)
    (hsr : s.is_running_c = false)
    (hsd : s.is_disposed_c = false) :
    t.add_strategy s =
      Except.ok
        { t with
          log := t.log ++ [LogRecord.mk LogLevel.error "Cannot add a strategy to a running trader."] } ∧
    (t.add_strategy_post s).strategies = t.strategies ∧
    (t.add_strategy_post s).strategies.length = t.strategies.length ∧
    (t.add_strategy_post s).contains_strategy s = false := by
  have hok : t.add_strategy s =
      Except.ok
        { t with
          log := t.log ++ [LogRecord.mk LogLevel.error "Cannot add a strategy to a running trader."] } := by
    simp [Trader.add_strategy, hmem, hsr, hsd, hrun]
  have hpost : t.add_strategy_post s =
      { t with
        log := t.log ++ [LogRecord.mk LogLevel.error "Cannot add a strategy to a running trader."] } := by
    unfold Trader.add_strategy_post
    rw [hok]
  refine ⟨hok, by rw [hpost], by rw [hpost], ?_⟩
  rw [hpost]
  simpa [Trader.contains_strategy] using hmem

/-- Concrete instantiation of `trader_add_strategy_while_running` on the
running sample trader. -/
theorem trader_add_strategy_while_running_witness :
    runningTrader.is_running_c = true ∧
    runningTrader.contains_strategy sampleStrategy = false ∧
    (runningTrader.add_strategy_post sampleStrategy).strategies = runningTrader.strategies := by
  refine ⟨rfl, rfl, ?_⟩
  exact (trader_add_strategy_while_running runningTrader sampleStrategy rfl rfl rfl rfl).2.1

/-- C4: `add_strategy` and `add_actor` raise (and register nothing — the
trader state after the failed call equals the state before it) whenever the
unit is already present in the corresponding registry, or is RUNNING, or is
DISPOSED, regardless of the Trader's own state. -/
theorem trader_add_rejects (t : Trader) (s a : Actor)
    (hs : t.contains_strategy s = true ∨ s.is_running_c = true ∨ s.is_disposed_c = true)
    (ha : t.contains_actor a = true ∨ a.is_running_c = true ∨ a.is_disposed_c = true) :
    (∃ e, t.add_strategy s = Except.error e) ∧
    t.add_strategy_post s = t ∧
    (∃ e, t.add_actor a = Except.error e) ∧
    t.add_actor_post a = t := by
  have hserr : ∃ e, t.add_strategy s = Except.error e := by
    by_cases h1 : t.contains_strategy s = true
    · exact ⟨ConditionError.keyError "strategy already exists in _strategies",
        by simp [Trader.add_strategy, h1]⟩
    · by_cases h2 : s.is_running_c = true
      · exact ⟨ConditionError.valueError "strategy.state was RUNNING",
          by simp [Trader.add_strategy, h1, h2]⟩
      · have h3 : s.is_disposed_c = true := by
          rcases hs with h | h | h
          · exact absurd h h1
          · exact absurd h h2
          · exact h
        exact ⟨ConditionError.valueError "strategy.state was DISPOSED",
          by simp [Trader.add_strategy, h1, h2, h3]⟩
  have haerr : ∃ e, t.add_actor a = Except.error e := by
    by_cases h1 : t.contains_actor a = true
    · exact ⟨ConditionError.keyError "actor already exists in _actors",
        by simp [Trader.add_actor, h1]⟩
    · by_cases h2 : a.is_running_c = true
      · exact ⟨ConditionError.valueError "actor.state was RUNNING",
          by simp [Trader.add_actor, h1, h2]⟩
      · have h3 : a.is_disposed_c = true := by
          rcases ha with h | h | h
          · exact absurd h h1
          · exact absurd h h2
          · exact h
        exact ⟨ConditionError.valueError "actor.state was DISPOSED",
          by simp [Trader.add_actor, h1, h2, h3]⟩
  obtain ⟨es, hes⟩ := hserr
  obtain ⟨ea, hea⟩ := haerr
  refine ⟨⟨es, hes⟩, ?_, ⟨ea, hea⟩, ?_⟩
  · unfold Trader.add_strategy_post
    rw [hes]
  · unfold Trader.add_actor_post
    rw [hea]

/-- Concrete instantiation of `trader_add_rejects`: adding a RUNNING unit to
the sample trader is rejected both as a strategy and as an actor. -/
theorem trader_add_rejects_witness :
    runningActor.is_running_c = true ∧
    sampleTrader.add_strategy_post runningActor = sampleTrader ∧
    sampleTrader.add_actor_post runningActor = sampleTrader := by
  have h := trader_add_rejects sampleTrader runningActor runningActor
    (Or.inr (Or.inl rfl)) (Or.inr (Or.inl rfl))
  exact ⟨rfl, h.2.1, h.2.2.2⟩

/-- C5: a successful `add_strategy` (resp. `add_actor`) wires the unit with
the Trader's id, the shared Portfolio (strategies only), Cache and MessageBus,
a child Logger, and a newly constructed Clock instance distinct from the
Trader's clock and from every registered unit's clock, then appends the unit
to the end of the corresponding registry. -/
theorem trader_add_success_wiring (t : Trader) (s a : Actor)
    (hnr : t.is_running_c = false)
    (hfresh : t.clock_fresh = true)
    (hms : t.contains_strategy s = false)
    (hsr : s.is_running_c = false)
    (hsd : s.is_disposed_c = false)
    (hma : t.contains_actor a = false)
    (har : a.is_running_c = false)
    (had : a.is_disposed_c = false) :
    (∃ s' : Actor,
      t.add_strategy s =
        Except.ok
          { t with
            strategies := t.strategies ++ [s']
            next_clock_id := t.next_clock_id + 1
            log := t.log ++ [LogRecord.mk LogLevel.info "Registered TradingStrategy."] } ∧
      s'.id = s.id ∧
      s'.trader_id = some t.id ∧
      s'.portfolio_ref = some t.portfolio.pid ∧
      s'.cache_ref = some t.cache.cid ∧
      s'.msgbus_ref = some t.msgbus_id ∧
      s'.logger_ref = some t.logger_id ∧
      s'.clock = some t.next_clock_id ∧
      t.next_clock_id ≠ t.clock_id ∧
      ∀ u ∈ t.actors ++ t.strategies, u.clock ≠ some t.next_clock_id) ∧
    (∃ a' : Actor,
      t.add_actor a =
        Except.ok
          { t with
            actors := t.actors ++ [a']
            next_clock_id := t.next_clock_id + 1
            log := t.log ++ [LogRecord.mk LogLevel.info "Registered Component."] } ∧
      a'.id = a.id ∧
      a'.trader_id = some t.id ∧
      a'.cache_ref = some t.cache.cid ∧
      a'.msgbus_ref = some t.msgbus_id ∧
      a'.logger_ref = some t.logger_id ∧
      a'.clock = some t.next_clock_id ∧
      ∀ u ∈ t.actors ++ t.strategies, u.clock ≠ some t.next_clock_id) := by
  have hfresh' := hfresh
  rw [Trader.clock_fresh, Bool.and_eq_true] at hfresh'
  have hlt : t.clock_id < t.next_clock_id := of_decide_eq_true hfresh'.1
  have hnone : ∀ u ∈ t.actors ++ t.strategies, u.clock ≠ some t.next_clock_id := by
    intro u hu hclk
    have hb := List.all_eq_true.mp hfresh'.2 u hu
    rw [clock_below, hclk] at hb
    exact absurd (of_decide_eq_true hb) (lt_irrefl _)
  have hne : t.next_clock_id ≠ t.clock_id := (Nat.ne_of_lt hlt).symm
  constructor
  · refine ⟨{ Actor.register s t.id t.portfolio.pid t.msgbus_id t.cache.cid t.next_clock_id
        t.logger_id with oms_registered := true }, ?_, ?_, ?_, ?_, ?_, ?_, ?_, ?_, hne, hnone⟩
    · simp [Trader.add_strategy, hms, hsr, hsd, hnr]
    all_goals simp [Actor.register]
  · refine ⟨Actor.register_base a t.id t.msgbus_id t.cache.cid t.next_clock_id t.logger_id,
      ?_, ?_, ?_, ?_, ?_, ?_, ?_, hnone⟩
    · simp [Trader.add_actor, hma, har, had, hnr]
    all_goals simp [Actor.register_base]

/-- Concrete instantiation of `trader_add_success_wiring`: registering the
sample strategy into the sample trader appends exactly one strategy. -/
theorem trader_add_success_wiring_witness :
    sampleTrader.is_running_c = false ∧
    sampleTrader.clock_fresh = true ∧
    sampleTrader.contains_strategy sampleStrategy = false ∧
    (sampleTrader.add_strategy_post sampleStrategy).strategies.length = 1 ∧
    (sampleTrader.add_actor_post sampleActor).actors.length = 1 := by
  have h := trader_add_success_wiring sampleTrader sampleStrategy sampleActor
    rfl rfl rfl rfl rfl rfl rfl rfl
  obtain ⟨⟨s', hok, hrest⟩, ⟨a', haok, harest⟩⟩ := h
  refine ⟨rfl, rfl, rfl, ?_, ?_⟩
  · unfold Trader.add_strategy_post
    rw [hok]
    simp [sampleTrader]
  · unfold Trader.add_actor_post
    rw [haok]
    simp [sampleTrader]

/-- C6: invoking the `_start` hook on a Trader whose strategy registry is
empty logs an error and performs no further action — the registries are left
untouched, so no actor's or strategy's `start()` is invoked. -/
theorem trader_start_empty (t : Trader) (h : t.strategies = []) :
    t._start = { t with log := t.log ++ [LogRecord.mk LogLevel.error "No strategies loaded."] } ∧
    (t._start).actors = t.actors ∧
    (t._start).strategies = t.strategies := by
  have hempty : t.strategies.isEmpty = true := by rw [h]; rfl
  have heq : t._start =
      { t with log := t.log ++ [LogRecord.mk LogLevel.error "No strategies loaded."] } := by
    simp [Trader._start, hempty]
  exact ⟨heq, by rw [heq], by rw [heq]⟩

/-- Concrete instantiation of `trader_start_empty` on the sample trader with
its empty strategy registry. -/
theorem trader_start_empty_witness :
    sampleTrader.strategies = [] ∧
    sampleTrader._start =
      { sampleTrader with
        log := sampleTrader.log ++ [LogRecord.mk LogLevel.error "No strategies loaded."] } := by
  exact ⟨rfl, (trader_start_empty sampleTrader rfl).1⟩

/-- The warning records `_stop` emits for a registry: one per non-running
unit, in iteration order. -/
def stop_warnings (l : List Actor) : List LogRecord :=
  l.filterMap (fun a =>
    if a.is_running_c then none else some (LogRecord.mk LogLevel.warning "already stopped."))

/-- Unfolding of the `_stop` loop over one registry: each running unit is
stopped in place, each non-running unit is kept and yields a warning. -/
theorem stop_each_eq (l : List Actor) :
    stop_each l = (l.map (fun a => if a.is_running_c then a.stop else a), stop_warnings l) := by
  induction l with
  | nil => rfl
  | cons a rest ih =>
    by_cases hr : a.is_running_c = true <;>
      simp [stop_each, stop_warnings, hr, ih, List.filterMap_cons]

/-- Pointwise effect of the `_stop` loop on the stop-call counter. -/
theorem stop_step_stopCalls (a : Actor) :
    (if a.is_running_c then a.stop else a).stopCalls =
      (if a.is_running_c then a.stopCalls + 1 else a.stopCalls) := by
  by_cases hr : a.is_running_c = true <;> simp [hr, Actor.stop]

/-- Pointwise effect of the `_stop` loop on the unit identifier. -/
theorem stop_step_id (a : Actor) : (if a.is_running_c then a.stop else a).id = a.id := by
  by_cases hr : a.is_running_c = true <;> simp [hr, Actor.stop]

/-- C7: the `_stop` hook iterates all actors and then all strategies in
registration order; each running child is stopped (receiving exactly one
`stop()` call, observed on its stop counter), each non-running child yields a
logged warning and the cascade continues; identifiers and list positions are
preserved. -/
theorem trader_stop_cascade (t : Trader) :
    (t._stop).actors = t.actors.map (fun a => if a.is_running_c then a.stop else a) ∧
    (t._stop).strategies = t.strategies.map (fun s => if s.is_running_c then s.stop else s) ∧
    (t._stop).log = t.log ++ stop_warnings t.actors ++ stop_warnings t.strategies ∧
    (t._stop).actors.map (fun a => a.stopCalls) =
      t.actors.map (fun a => if a.is_running_c then a.stopCalls + 1 else a.stopCalls) ∧
    (t._stop).strategies.map (fun s => s.stopCalls) =
      t.strategies.map (fun s => if s.is_running_c then s.stopCalls + 1 else s.stopCalls) ∧
    (t._stop).actors.map (fun a => a.id) = t.actors.map (fun a => a.id) ∧
    (t._stop).strategies.map (fun s => s.id) = t.strategies.map (fun s => s.id) := by
  have ha : (t._stop).actors = t.actors.map (fun a => if a.is_running_c then a.stop else a) := by
    simp [Trader._stop, stop_each_eq]
  have hs : (t._stop).strategies =
      t.strategies.map (fun s => if s.is_running_c then s.stop else s) := by
    simp [Trader._stop, stop_each_eq]
  refine ⟨ha, hs, ?_, ?_, ?_, ?_, ?_⟩
  · simp [Trader._stop, stop_each_eq]
  · rw [ha, List.map_map]
    exact List.map_congr_left (fun a _ => stop_step_stopCalls a)
  · rw [hs, List.map_map]
    exact List.map_congr_left (fun s _ => stop_step_stopCalls s)
  · rw [ha, List.map_map]
    exact List.map_congr_left (fun a _ => stop_step_id a)
  · rw [hs, List.map_map]
    exact List.map_congr_left (fun s _ => stop_step_id s)

/-- C8: `generate_account_report(venue)` returns the empty DataFrame (rather
than raising) when the Cache holds no account for the venue, and no reporting
operation mutates the Trader, its registries or the Cache. -/
theorem trader_account_report_empty (t : Trader) (venue : String)
    (h : t.cache.account_for_venue venue = none) :
    t.generate_account_report venue = (DataFrame.empty, t) ∧
    (t.generate_orders_report).2 = t ∧
    (t.generate_order_fills_report).2 = t ∧
    (t.generate_positions_report).2 = t ∧
    ∀ v : String, (t.generate_account_report v).2 = t := by
  refine ⟨?_, rfl, rfl, rfl, ?_⟩
  · simp [Trader.generate_account_report, h]
  · intro v
    unfold Trader.generate_account_report
    cases t.cache.account_for_venue v <;> rfl

/-- Concrete instantiation of `trader_account_report_empty`: the sample
trader's cache has no account for venue "SIM". -/
theorem trader_account_report_empty_witness :
    sampleTrader.cache.account_for_venue "SIM" = none ∧
    sampleTrader.generate_account_report "SIM" = (DataFrame.empty, sampleTrader) := by
  exact ⟨rfl, (trader_account_report_empty sampleTrader "SIM" rfl).1⟩

/-- C9: `strategy_ids()` and `actor_ids()` return the registered identifiers
sorted in ascending order (a permutation of the registry's identifiers, not
registration order), and leave the Trader — in particular both registries —
unchanged. -/
theorem trader_ids_sorted (t : Trader) :
    List.Sorted (fun a b => a ≤ b) (t.strategy_ids).1 ∧
    List.Perm (t.strategy_ids).1 (t.strategies.map (fun s => s.id)) ∧
    (t.strategy_ids).2 = t ∧
    List.Sorted (fun a b => a ≤ b) (t.actor_ids).1 ∧
    List.Perm (t.actor_ids).1 (t.actors.map (fun a => a.id)) ∧
    (t.actor_ids).2 = t := by
  refine ⟨?_, ?_, rfl, ?_, ?_, rfl⟩
  · exact List.sorted_insertionSort _ _
  · exact List.perm_insertionSort _ _
  · exact List.sorted_insertionSort _ _
  · exact List.perm_insertionSort _ _

/-- C10: the `_reset` hook resets every registered actor and strategy in
registration order, and additionally mutates state outside the registries:
the shared Portfolio and the Trader's PortfolioAnalyzer are both reset (and
observably changed). -/
theorem trader_reset_frame (t : Trader) :
    (t._reset).actors = t.actors.map Actor.reset ∧
    (t._reset).strategies = t.strategies.map Actor.reset ∧
    (t._reset).actors.map (fun a => a.resetCalls) = t.actors.map (fun a => a.resetCalls + 1) ∧
    (t._reset).strategies.map (fun s => s.resetCalls) =
      t.strategies.map (fun s => s.resetCalls + 1) ∧
    (t._reset).portfolio = t.portfolio.reset ∧
    (t._reset).analyzer = t.analyzer.reset ∧
    (t._reset).portfolio ≠ t.portfolio ∧
    (t._reset).analyzer ≠ t.analyzer := by
  refine ⟨rfl, rfl, ?_, ?_, rfl, rfl, ?_, ?_⟩
  · simp [Trader._reset, List.map_map, Actor.reset]
  · simp [Trader._reset, List.map_map, Actor.reset]
  · intro h
    have := congrArg Portfolio.resets h
    simp [Trader._reset, Portfolio.reset] at this
  · intro h
    have := congrArg PortfolioAnalyzer.resets h
    simp [Trader._reset, PortfolioAnalyzer.reset] at this

end Nautilus
